import Mathlib

/-!
Verification of the commit-msg core: the OpenAI chat-completion client
(`internal/openai`) and the commit-message assistant
(`internal/commitassist`), shallowly embedded from the Go source.

Conventions of the embedding:
* Go `float32`/`float64` values are modelled as exact rationals (`ℚ`); every
  arithmetic step the claims touch is exact in the source as well.
* Go functions returning `(value, error)` are modelled as
  `value × Option error` pairs, with the Go zero value in the error case,
  exactly as the source returns it.
* The HTTP round trip is modelled by a `Doer` function from the marshalled
  request body to either a transport error (`Except.error`) or an HTTP
  response whose body is either a decodable `rawChatCompletionResponse`
  (`some`) or undecodable JSON (`none`).
* Functions that may invoke the `Doer` additionally return the list of
  request bodies handed to it, so "no network call is made" is the
  statement that this trace is empty.
-/

/-- Go string type `aiModel` (internal/openai/client.go). -/
abbrev aiModel := String

/-- The constant `GPT3_5Turbo aiModel = "gpt-3.5-turbo"`. -/
def GPT3_5Turbo : aiModel := "gpt-3.5-turbo"

/-- `func (m aiModel) Cost(totalTokens int) float64`: zero for non-positive
token counts, `$0.002 / 1K tokens` for gpt-3.5-turbo, zero for unknown
models. -/
def aiModel.Cost (m : aiModel) (totalTokens : Int) : ℚ :=
  if totalTokens ≤ 0 then 0
  else if m = GPT3_5Turbo then (totalTokens : ℚ) * 0.002 / 1000
  else 0

/-- Go string type `aiRole`. -/
abbrev aiRole := String

/-- `UserRole aiRole = "user"`. -/
def UserRole : aiRole := "user"

/-- `SystemRole aiRole = "system"`. -/
def SystemRole : aiRole := "system"

/-- `AssistantRole aiRole = "assistant"`. -/
def AssistantRole : aiRole := "assistant"

/-- `type Message struct { Role aiRole; Content string }`. -/
structure Message where
  Role : aiRole
  Content : String
deriving Repr, DecidableEq

/-- The wire struct `chatCompletionRequest` that is JSON-marshalled into the
request body: `{Model string; Messages []Message; Temperature float32}`. -/
structure chatCompletionRequest where
  Model : String
  Messages : List Message
  Temperature : ℚ
deriving Repr, DecidableEq

/-- `rawChatCompletionUsageResponse`. -/
structure rawChatCompletionUsageResponse where
  PromptTokens : Int
  CompletionTokens : Int
  TotalTokens : Int
deriving Repr, DecidableEq

/-- `rawChatCompletionMessageResponse`. -/
structure rawChatCompletionMessageResponse where
  Role : String
  Content : String
deriving Repr, DecidableEq

/-- `rawChatCompletionChoiceResponse`. -/
structure rawChatCompletionChoiceResponse where
  Message : rawChatCompletionMessageResponse
  FinishReason : String
  Index : Int
deriving Repr, DecidableEq

/-- `func (c rawChatCompletionChoiceResponse) Content() string`. -/
def rawChatCompletionChoiceResponse.Content
    (c : rawChatCompletionChoiceResponse) : String :=
  c.Message.Content

/-- `rawChatCompletionResponse`: the provider's decoded JSON shape. -/
structure rawChatCompletionResponse where
  ID : String
  Object : String
  Created : Int
  Model : String
  Usage : rawChatCompletionUsageResponse
  Choices : List rawChatCompletionChoiceResponse
deriving Repr, DecidableEq

/-- `chatCompletionResponse`: the client's decoded result. `Created` keeps
the Unix seconds that `time.Unix(cResponse.Created, 0)` is built from. -/
structure chatCompletionResponse where
  Created : Int
  Model : aiModel
  Cost : ℚ
  Messages : List String
deriving Repr, DecidableEq

/-- The Go zero value `chatCompletionResponse{}` returned alongside every
client error. -/
def chatCompletionResponseZero : chatCompletionResponse :=
  { Created := 0, Model := "", Cost := 0, Messages := [] }

/-- `func calculateCost(totalTokens int, model Coster) float64`. -/
def calculateCost (totalTokens : Int) (model : aiModel) : ℚ :=
  aiModel.Cost model totalTokens

/-- The HTTP response handed back by the `Doer`: status code, status text,
and a body that either decodes to a `rawChatCompletionResponse` (`some`) or
fails JSON decoding (`none`). -/
structure httpResponse where
  StatusCode : Int
  Status : String
  Body : Option rawChatCompletionResponse

/-- The `Doer` collaborator (`Do(req) (*http.Response, error)`), keyed by the
marshalled request body (URL and headers are constants of the client). -/
abbrev Doer := chatCompletionRequest → Except String httpResponse

/-- The distinct error conditions of `ChatCompletionRequest`, one per
`return`-with-error branch of the Go function. -/
inductive clientError where
  | invalidTemperature (t : ℚ)
  | transport (msg : String)
  | badStatus (status : String)
  | decodeFailure
deriving Repr, DecidableEq

/-- `func (c *Client) ChatCompletionRequest(ctx, messages, model, temperature)`.
Validates the temperature, marshals the request body (the Go struct literal
`chatCompletionRequest{Model: ..., Messages: messages}` leaves `Temperature`
at its float32 zero value `0`), performs the call through the `Doer`, checks
the status, decodes, and assembles the response. The second component is the
trace of request bodies handed to the `Doer`. -/
def ChatCompletionRequest (doer : Doer) (messages : List Message)
    (model : aiModel) (temperature : ℚ) :
    (chatCompletionResponse × Option clientError) × List chatCompletionRequest :=
  if temperature < 0 ∨ temperature > 1 then
    ((chatCompletionResponseZero, some (.invalidTemperature temperature)), [])
  else
    let requestBody : chatCompletionRequest :=
      { Model := model, Messages := messages, Temperature := 0 }
    match doer requestBody with
    | .error e => ((chatCompletionResponseZero, some (.transport e)), [requestBody])
    | .ok resp =>
      if resp.StatusCode ≠ 200 then
        ((chatCompletionResponseZero, some (.badStatus resp.Status)), [requestBody])
      else
        match resp.Body with
        | none => ((chatCompletionResponseZero, some .decodeFailure), [requestBody])
        | some cResponse =>
          (({ Created := cResponse.Created
              Model := model
              Cost := calculateCost cResponse.Usage.TotalTokens model
              Messages := cResponse.Choices.map rawChatCompletionChoiceResponse.Content },
            none), [requestBody])

/-- Whether the character list `pat` stands at the head of `s`. -/
def listStartsWith : List Char → List Char → Bool
  | _, [] => true
  | [], _ :: _ => false
  | c :: cs, p :: ps => c = p && listStartsWith cs ps

/-- Whether the character list `pat` occurs contiguously anywhere in `s`. -/
def listContainsSeq : List Char → List Char → Bool
  | [], pat => listStartsWith [] pat
  | c :: cs, pat => listStartsWith (c :: cs) pat || listContainsSeq cs pat

/-- Go `strings.Contains(s, sub)`: `sub` occurs as a contiguous substring of
`s`. -/
def goStringsContains (s sub : String) : Bool :=
  listContainsSeq s.data sub.data

/-- `type GetTypeResponse struct { Message string; Cost float64 }`; `Cost` is
in cents. -/
structure GetTypeResponse where
  Message : String
  Cost : ℚ
deriving Repr, DecidableEq

/-- The Go zero value `GetTypeResponse{}` returned alongside every assistant
error. -/
def GetTypeResponseZero : GetTypeResponse :=
  { Message := "", Cost := 0 }

/-- Go string type `Style` (internal/commitassist/assist.go). -/
abbrev Style := String

/-- `DescriptiveAndNeutral Style = "DescriptiveAndNeutral"`. -/
def DescriptiveAndNeutral : Style := "DescriptiveAndNeutral"

/-- `ConversationalAndCasual Style = "ConversationalAndCasual"`. -/
def ConversationalAndCasual : Style := "ConversationalAndCasual"

/-- `ListBased Style = "ListBased"`. -/
def ListBased : Style := "ListBased"

/-- `ProblemSolution Style = "ProblemSolution"`. -/
def ProblemSolution : Style := "ProblemSolution"

/-- `func ValidateMessageStyle(assumedStyle string) (Style, error)`: the four
enumerated styles pass through, anything else yields the Go zero style and
the error `invalid style %q` (modelled as the quoted style name). -/
def ValidateMessageStyle (assumedStyle : String) : Style × Option String :=
  if assumedStyle = DescriptiveAndNeutral ∨ assumedStyle = ConversationalAndCasual
      ∨ assumedStyle = ListBased ∨ assumedStyle = ProblemSolution then
    (assumedStyle, none)
  else
    ("", some ("invalid style \"" ++ assumedStyle ++ "\""))

/-- `type MessageConfig struct { Style Style; ConventionalCommitCompliant bool }`. -/
structure MessageConfig where
  Style : Style
  ConventionalCommitCompliant : Bool
deriving Repr, DecidableEq

/-- The errors `GetCommitMessage` can surface: a style-validation error, a
wrapped client error (`could not do ChatCompletionRequest: %w`), the typed
`UnexpectedStateError`, and the typed `UnsureError`. -/
inductive assistError where
  | validation (msg : String)
  | clientFailure (e : clientError)
  | unexpectedState (msg : String)
  | unsure (msg : String)
deriving Repr, DecidableEq

/-- The `styleDescriptions` map of `GetCommitMessage`; a key outside the map
yields the Go zero string. -/
def styleDescriptions (s : Style) : String :=
  if s = DescriptiveAndNeutral then
    "descriptive and neutral. Use clear, concise language to describe the changes. The message should be objective and factual, focusing solely on what was done, without injecting personal opinions or unnecessary context"
  else if s = ConversationalAndCasual then
    "conversational and casual using informal language or even a touch of humor to describe the changes. You should aim to make the commit messages engaging, yet still professional and informative"
  else if s = ListBased then
    "list-based. Use bullet points or numbered lists to itemize the changes made. Each point should be concise, specific, and self-explanatory. This style is particularly suitable for commits that involve multiple changes or updates. Despite the structured format, ensure the message provides enough context to understand the changes without having to look at the code"
  else if s = ProblemSolution then
    "problem-solution oriented. Begin by clearly outlining the problem or issue that was addressed. Follow this with a concise explanation of the solution implemented to fix the problem. This style encourages a logical and methodical approach to describing changes, and is particularly effective for commits aimed at fixing bugs or improving functionality"
  else ""

/-- The conventional-commit instruction added to the system prompt when
`cfg.ConventionalCommitCompliant` is set, empty otherwise. -/
def conventionalCommitContent (compliant : Bool) : String :=
  if compliant then
    "Use the conventional commit standard, including any breaking changes, which should be denoted with a '!' (e.g., 'feat!')."
  else ""

/-- The system message content: the `fmt.Sprintf` of the fixed prompt
template with the style description and the conventional-commit
instruction. -/
def systemContent (cfg : MessageConfig) : String :=
  "You are an insightful assistant that crafts\ncommit messages. The commit messages should accurately and succinctly explain\nthe changes made in the files, detailing the reason for changes and the effect\nthey will have on the project. Your responses should consist of the commit\nsubject and the commit body, separated by newlines.\n\nThe commit subject should:\n- Be brief (50 characters or less)\n- Use the imperative mood (e.g., \"Add\", \"Fix\", \"Change\")\n\nThe commit body should:\n- Further explain the changes in detail if necessary\n- Be wrapped at 72 characters\n- Be separated from the commit subject by a blank line\n\nMake sure they provide enough context to understand the changes without having to look at the code.\n\nThe style of the commit message should be "
    ++ styleDescriptions cfg.Style ++ ".\n"
    ++ conventionalCommitContent cfg.ConventionalCommitCompliant ++ "\n"

/-- The fixed exemplar user diff of the few-shot prompt. -/
def exemplarDiff : String :=
  "diff --git a/README.md b/README.md\nnew file mode 100644\nindex 0000000..ca34b6a\n--- /dev/null\n+++ b/README.md\n@@ -0,0 +1,21 @@\n+# Commit Message\n+\n+Create a commit message suggestion from the git diff using the openAI API.\n+\n+Note that this means that filename and lines changed is sent to openAI. If that\n+bothers you - don't use this tool."

/-- `func getExpectedMessage(style Style, conventionalCommitCompliant bool) string`:
the fixed exemplar assistant answer per style (Go zero string for the
unreachable default), prefixed with `feat: ` when compliance is on. -/
def getExpectedMessage (style : Style) (conventionalCommitCompliant : Bool) : String :=
  let expectedMessage : String :=
    if style = DescriptiveAndNeutral then
      "Add README.md to explain the tool usage\n\nThis commit adds a new README.md file that serves as a comprehensive guide for utilizing the recently developed tool. The README.md file contains explicit instructions and essential information regarding the functionality of the tool, as well as the details of its interaction with the OpenAI API. It provides insights into the tool's capabilities, along with specific details on the files and lines that are affected during its operation"
    else if style = ConversationalAndCasual then
      "Unleashing a brand new README.md to demystify our OpenAI-powered commit message wizardry!\n\nHey folks,\nWe just slapped a shiny new README.md into the mix! 🎉\nThis bad boy's job is to school you all about our super cool, freshly baked tool that spits out commit message suggestions - all powered by the magic of OpenAI (no wizards were harmed in the process, promise! 🧙.\nIt's got everything - the ins, the outs, the what-have-yous about our tool. Oh, and it's also gonna give you the lowdown on the stuff we're sending over to OpenAI (don't worry, it's just filenames and changed lines, not your secret cookie recipes! 🍪).\nSo strap in, take a gander at the README, and let's get those commit messages singing! 🎵"
    else if style = ListBased then
      "Introducing README.md to illuminate tool usage\n\n In this commit:\n\n- A new README.md file has been added\n- Its purpose: to offer detailed instructions and critical notes about our fresh tool that generates commit message suggestions\n- What's covered in the README:\n  - The tool's functionality\n  - The type of data sent to OpenAI, like filenames and lines changed\n"
    else if style = ProblemSolution then
      "Addressing the lack of clarity with new README.md\n\nProblem: Users were left in the dark about how to use our new commit message suggestion tool, and there was ambiguity regarding what data was being sent to OpenAI.\n\nSolution: In this commit, we've introduced a README.md file that does the following:\n\n- Provides detailed instructions and important notes about the usage of the tool\n- Sheds light on the tool's functionality\n- Outlines the specific data it sends to OpenAI, such as filenames and lines changed"
    else ""
  if conventionalCommitCompliant then "feat: " ++ expectedMessage else expectedMessage

/-- The four-message few-shot conversation `GetCommitMessage` passes to
`doChatCompletionRequest`: system prompt, exemplar user diff, exemplar
assistant answer, and the caller's diff as the final user message. -/
def buildMessages (gitDiff : String) (cfg : MessageConfig) : List Message :=
  [ { Role := SystemRole, Content := systemContent cfg },
    { Role := UserRole, Content := exemplarDiff },
    { Role := AssistantRole,
      Content := getExpectedMessage cfg.Style cfg.ConventionalCommitCompliant },
    { Role := UserRole, Content := gitDiff } ]

/-- `func (o *Client) doChatCompletionRequest(ctx, messages)`: calls the
client with `GPT3_5Turbo` and temperature `0.2`, rejects a message count
other than 1 as `UnexpectedStateError`, rejects an answer containing
"unsure" as `UnsureError`, and otherwise returns the answer verbatim with
the dollar cost converted to cents. -/
def doChatCompletionRequest (doer : Doer) (messages : List Message) :
    (GetTypeResponse × Option assistError) × List chatCompletionRequest :=
  match ChatCompletionRequest doer messages GPT3_5Turbo 0.2 with
  | ((_, some err), trace) =>
    ((GetTypeResponseZero, some (.clientFailure err)), trace)
  | ((content, none), trace) =>
    if content.Messages.length ≠ 1 then
      ((GetTypeResponseZero,
        some (.unexpectedState
          ("unexpected number of messages returned, got "
            ++ toString content.Messages.length))), trace)
    else
      -- content.Messages[0]; the length check guarantees the index is valid.
      let message := content.Messages.headD ""
      if goStringsContains message "unsure" then
        ((GetTypeResponseZero, some (.unsure message)), trace)
      else
        (({ Message := message, Cost := content.Cost * 100 }, none), trace)

/-- `func (o *Client) GetCommitMessage(ctx, gitDiff, cfg)`: defaults a nil
config to descriptive-and-neutral, validates the style, builds the few-shot
conversation and delegates to `doChatCompletionRequest`. -/
def GetCommitMessage (doer : Doer) (gitDiff : String)
    (cfgOpt : Option MessageConfig) :
    (GetTypeResponse × Option assistError) × List chatCompletionRequest :=
  let cfg := cfgOpt.getD { Style := DescriptiveAndNeutral, ConventionalCommitCompliant := false }
  match (ValidateMessageStyle cfg.Style).2 with
  | some err => ((GetTypeResponseZero, some (.validation err)), [])
  | none => doChatCompletionRequest doer (buildMessages gitDiff cfg)

/-! ## Helper lemmas shared by the claim theorems -/

/-- The fixed temperature 0.2 used by `doChatCompletionRequest` passes the
client's validation. -/
lemma temperature_point_two_valid : ¬((0.2 : ℚ) < 0 ∨ (0.2 : ℚ) > 1) := by norm_num

/-- With a valid temperature and a `Doer` that answers 200 with a decodable
body, `ChatCompletionRequest` decodes the response and records exactly one
request body, whose `Temperature` field is the Go zero value. -/
lemma ChatCompletionRequest_decoded (messages : List Message) (model : aiModel)
    (t : ℚ) (status : String) (raw : rawChatCompletionResponse)
    (h : ¬(t < 0 ∨ t > 1)) :
    ChatCompletionRequest (fun _ => Except.ok ⟨200, status, some raw⟩) messages model t =
      (({ Created := raw.Created
          Model := model
          Cost := calculateCost raw.Usage.TotalTokens model
          Messages := raw.Choices.map rawChatCompletionChoiceResponse.Content },
        none),
       [{ Model := model, Messages := messages, Temperature := 0 }]) := by
  unfold ChatCompletionRequest
  rw [if_neg h]
  rfl

/-- With a valid temperature, `ChatCompletionRequest` hands exactly one
request body to the `Doer`, whatever the `Doer` answers, and that body's
`Temperature` field is the Go zero value. -/
lemma ChatCompletionRequest_trace (doer : Doer) (messages : List Message)
    (model : aiModel) (t : ℚ) (h : ¬(t < 0 ∨ t > 1)) :
    (ChatCompletionRequest doer messages model t).2
      = [{ Model := model, Messages := messages, Temperature := 0 }] := by
  unfold ChatCompletionRequest
  rw [if_neg h]
  dsimp only
  rcases doer { Model := model, Messages := messages, Temperature := 0 } with e | resp
  · rfl
  · dsimp only
    by_cases hs : resp.StatusCode ≠ 200
    · rw [if_pos hs]
    · rw [if_neg hs]
      cases resp.Body <;> rfl

/-- `doChatCompletionRequest` passes the client's request trace through
unchanged. -/
lemma doChat_trace_eq (doer : Doer) (messages : List Message) :
    (doChatCompletionRequest doer messages).2
      = (ChatCompletionRequest doer messages GPT3_5Turbo 0.2).2 := by
  unfold doChatCompletionRequest
  rcases hcc : ChatCompletionRequest doer messages GPT3_5Turbo 0.2 with ⟨⟨content, err⟩, trace⟩
  cases err with
  | none =>
    dsimp only
    by_cases hl : content.Messages.length ≠ 1
    · rw [if_pos hl]
    · rw [if_neg hl]
      by_cases hu : goStringsContains (content.Messages.headD "") "unsure" = true
      · rw [if_pos hu]
      · rw [if_neg hu]
  | some e => rfl

/-- Whenever `doChatCompletionRequest` reports an error, the response half of
the Go return pair is the zero `GetTypeResponse`. -/
lemma doChat_error_zero (doer : Doer) (messages : List Message) (e : assistError)
    (h : ((doChatCompletionRequest doer messages).1).2 = some e) :
    ((doChatCompletionRequest doer messages).1).1 = GetTypeResponseZero := by
  unfold doChatCompletionRequest at *
  rcases hcc : ChatCompletionRequest doer messages GPT3_5Turbo 0.2 with ⟨⟨content, err⟩, trace⟩
  rw [hcc] at h
  cases err with
  | none =>
    dsimp only at h ⊢
    by_cases hl : content.Messages.length ≠ 1
    · rw [if_pos hl]
    · rw [if_neg hl] at h ⊢
      by_cases hu : goStringsContains (content.Messages.headD "") "unsure" = true
      · rw [if_pos hu]
      · rw [if_neg hu] at h
        exact absurd h (by simp)
  | some err => rfl

/-- Under a valid style, `GetCommitMessage` is `doChatCompletionRequest` on
the four-message few-shot conversation. -/
lemma GetCommitMessage_valid (doer : Doer) (gitDiff : String) (cfg : MessageConfig)
    (hv : (ValidateMessageStyle cfg.Style).2 = none) :
    GetCommitMessage doer gitDiff (some cfg)
      = doChatCompletionRequest doer (buildMessages gitDiff cfg) := by
  unfold GetCommitMessage
  rw [Option.getD_some]
  dsimp only
  rw [hv]

/-- For a 200 response carrying exactly one choice, `GetCommitMessage` either
flags the unsure marker or returns the choice's content verbatim with the
cost in cents. -/
lemma GetCommitMessage_single_choice (gitDiff : String) (cfg : MessageConfig)
    (status : String) (raw : rawChatCompletionResponse) (choice : rawChatCompletionChoiceResponse)
    (hv : (ValidateMessageStyle cfg.Style).2 = none)
    (hc : raw.Choices = [choice]) :
    (GetCommitMessage (fun _ => Except.ok ⟨200, status, some raw⟩) gitDiff (some cfg)).1
      = if goStringsContains choice.Message.Content "unsure" = true
        then (GetTypeResponseZero, some (.unsure choice.Message.Content))
        else ({ Message := choice.Message.Content,
                Cost := calculateCost raw.Usage.TotalTokens GPT3_5Turbo * 100 }, none) := by
  rw [GetCommitMessage_valid _ _ _ hv]
  unfold doChatCompletionRequest
  rw [ChatCompletionRequest_decoded _ _ _ _ _ temperature_point_two_valid]
  dsimp only
  rw [hc]
  dsimp only [List.map_cons, List.map_nil, List.length_cons, List.length_nil,
    rawChatCompletionChoiceResponse.Content, List.headD]
  rw [if_neg (by norm_num)]
  split <;> rfl

/-! ## The claims -/

/-- C1: for every provider response with HTTP status 200 containing exactly
one choice whose message content does not contain the substring "unsure",
`GetCommitMessage` returns with no error a `GetTypeResponse` whose `Message`
equals that choice's content verbatim and whose `Cost` equals the client's
dollar cost multiplied by 100 (cents). -/
theorem getCommitMessage_single_answer_verbatim_cost_cents
    (gitDiff : String) (cfg : MessageConfig) (status : String)
    (raw : rawChatCompletionResponse) (choice : rawChatCompletionChoiceResponse)
    (hv : (ValidateMessageStyle cfg.Style).2 = none)
    (hc : raw.Choices = [choice])
    (hu : goStringsContains choice.Message.Content "unsure" = false) :
    (GetCommitMessage (fun _ => Except.ok ⟨200, status, some raw⟩) gitDiff (some cfg)).1
      = ({ Message := choice.Message.Content,
           Cost := aiModel.Cost GPT3_5Turbo raw.Usage.TotalTokens * 100 }, none) := by
  rw [GetCommitMessage_single_choice gitDiff cfg status raw choice hv hc, hu]
  rfl

/-- C1 witness: a 200 response with the single choice `feat: add X\n\nbody`
and 7 total tokens yields that content verbatim and the dollar cost times
100. -/
theorem getCommitMessage_single_answer_verbatim_cost_cents_witness :
    (GetCommitMessage
        (fun _ => Except.ok ⟨200, "200 OK",
          some { ID := "chatcmpl-1", Object := "chat.completion", Created := 0,
                 Model := "gpt-3.5-turbo",
                 Usage := { PromptTokens := 5, CompletionTokens := 2, TotalTokens := 7 },
                 Choices := [{ Message := { Role := "assistant", Content := "feat: add X\n\nbody" },
                               FinishReason := "stop", Index := 0 }] }⟩)
        "diff" (some { Style := "DescriptiveAndNeutral", ConventionalCommitCompliant := false })).1
      = ({ Message := "feat: add X\n\nbody",
           Cost := aiModel.Cost GPT3_5Turbo 7 * 100 }, none) :=
  getCommitMessage_single_answer_verbatim_cost_cents
    "diff" _ "200 OK" _ _ (by rfl) (by rfl) (by decide)

/-- C2: for every temperature outside [0, 1], `ChatCompletionRequest` fails
with the validation error right away and hands no request to the `Doer`
(the trace of issued requests is empty). -/
theorem chatCompletionRequest_invalid_temperature_no_call
    (doer : Doer) (messages : List Message) (model : aiModel) (t : ℚ)
    (h : t < 0 ∨ t > 1) :
    ChatCompletionRequest doer messages model t
      = ((chatCompletionResponseZero, some (.invalidTemperature t)), []) := by
  unfold ChatCompletionRequest
  rw [if_pos h]

/-- C2 witness: temperature 2 is rejected with no request issued. -/
theorem chatCompletionRequest_invalid_temperature_no_call_witness :
    ChatCompletionRequest (fun _ => Except.error "network down") [] GPT3_5Turbo 2
      = ((chatCompletionResponseZero, some (.invalidTemperature 2)), []) :=
  chatCompletionRequest_invalid_temperature_no_call _ _ _ 2 (by norm_num)

/-- C3: the gpt-3.5-turbo cost function is 0 on every non-positive token
count, equals 0.002 dollars at 1000 tokens, is linear
(`tokens * 0.002 / 1000`) on positive counts, and hence doubles from 1000
to 2000 tokens. -/
theorem gpt35turbo_cost_zero_reference_linear :
    (∀ n : Int, n ≤ 0 → aiModel.Cost GPT3_5Turbo n = 0)
    ∧ aiModel.Cost GPT3_5Turbo 1000 = 0.002
    ∧ (∀ n : Int, 0 < n → aiModel.Cost GPT3_5Turbo n = (n : ℚ) * 0.002 / 1000)
    ∧ aiModel.Cost GPT3_5Turbo 2000 = 2 * aiModel.Cost GPT3_5Turbo 1000 := by
  have hlin : ∀ n : Int, 0 < n → aiModel.Cost GPT3_5Turbo n = (n : ℚ) * 0.002 / 1000 := by
    intro n hn
    unfold aiModel.Cost
    rw [if_neg (by omega), if_pos rfl]
  refine ⟨?_, ?_, hlin, ?_⟩
  · intro n hn
    unfold aiModel.Cost
    rw [if_pos hn]
  · rw [hlin 1000 (by norm_num)]
    norm_num
  · rw [hlin 1000 (by norm_num), hlin 2000 (by norm_num)]
    norm_num

/-- C3 witness: the cost function at the concrete counts -7 and 500. -/
theorem gpt35turbo_cost_zero_reference_linear_witness :
    aiModel.Cost GPT3_5Turbo (-7) = 0
    ∧ aiModel.Cost GPT3_5Turbo 500 = (500 : ℚ) * 0.002 / 1000 :=
  ⟨gpt35turbo_cost_zero_reference_linear.1 (-7) (by norm_num),
   gpt35turbo_cost_zero_reference_linear.2.2.1 500 (by norm_num)⟩

/-- C4: for every decoded provider response whose answer list has length
other than 1, `GetCommitMessage` fails with the unexpected-state kind and
the error message carries the observed count. -/
theorem getCommitMessage_unexpected_answer_count
    (gitDiff : String) (cfg : MessageConfig) (status : String)
    (raw : rawChatCompletionResponse)
    (hv : (ValidateMessageStyle cfg.Style).2 = none)
    (hn : raw.Choices.length ≠ 1) :
    (GetCommitMessage (fun _ => Except.ok ⟨200, status, some raw⟩) gitDiff (some cfg)).1
      = (GetTypeResponseZero,
         some (.unexpectedState
           ("unexpected number of messages returned, got " ++ toString raw.Choices.length))) := by
  rw [GetCommitMessage_valid _ _ _ hv]
  unfold doChatCompletionRequest
  rw [ChatCompletionRequest_decoded _ _ _ _ _ temperature_point_two_valid]
  dsimp only
  rw [List.length_map, if_pos hn]

/-- C4 witness: a response with zero choices fails as unexpected state,
carrying the count 0. -/
theorem getCommitMessage_unexpected_answer_count_witness :
    (GetCommitMessage
        (fun _ => Except.ok ⟨200, "200 OK",
          some { ID := "", Object := "", Created := 0, Model := "gpt-3.5-turbo",
                 Usage := { PromptTokens := 0, CompletionTokens := 0, TotalTokens := 0 },
                 Choices := [] }⟩)
        "diff" (some { Style := "ListBased", ConventionalCommitCompliant := true })).1
      = (GetTypeResponseZero,
         some (.unexpectedState "unexpected number of messages returned, got 0")) :=
  getCommitMessage_unexpected_answer_count "diff" _ "200 OK" _ (by rfl) (by decide)

/-- C5: for every provider response with exactly one choice whose content
contains the substring "unsure" anywhere, `GetCommitMessage` fails with the
unsure kind, carrying the literal answer text as its message. -/
theorem getCommitMessage_unsure_marker_error
    (gitDiff : String) (cfg : MessageConfig) (status : String)
    (raw : rawChatCompletionResponse) (choice : rawChatCompletionChoiceResponse)
    (hv : (ValidateMessageStyle cfg.Style).2 = none)
    (hc : raw.Choices = [choice])
    (hu : goStringsContains choice.Message.Content "unsure" = true) :
    (GetCommitMessage (fun _ => Except.ok ⟨200, status, some raw⟩) gitDiff (some cfg)).1
      = (GetTypeResponseZero, some (.unsure choice.Message.Content)) := by
  rw [GetCommitMessage_single_choice gitDiff cfg status raw choice hv hc, hu]
  rfl

/-- C5 witness: an answer containing "unsure" mid-sentence is rejected with
the unsure kind carrying the literal text. -/
theorem getCommitMessage_unsure_marker_error_witness :
    (GetCommitMessage
        (fun _ => Except.ok ⟨200, "200 OK",
          some { ID := "", Object := "", Created := 0, Model := "gpt-3.5-turbo",
                 Usage := { PromptTokens := 0, CompletionTokens := 0, TotalTokens := 9 },
                 Choices := [{ Message := { Role := "assistant", Content := "I am unsure what this diff does" },
                               FinishReason := "stop", Index := 0 }] }⟩)
        "diff" (some { Style := "ProblemSolution", ConventionalCommitCompliant := false })).1
      = (GetTypeResponseZero, some (.unsure "I am unsure what this diff does")) :=
  getCommitMessage_unsure_marker_error "diff" _ "200 OK" _ _ (by rfl) (by rfl) (by decide)

/-- C6: for every config whose style is none of the four enumerated styles,
`GetCommitMessage` returns the validation error and hands no request to the
`Doer` (the trace of issued requests is empty). -/
theorem getCommitMessage_invalid_style_no_call
    (doer : Doer) (gitDiff : String) (cfg : MessageConfig)
    (h1 : cfg.Style ≠ DescriptiveAndNeutral) (h2 : cfg.Style ≠ ConversationalAndCasual)
    (h3 : cfg.Style ≠ ListBased) (h4 : cfg.Style ≠ ProblemSolution) :
    GetCommitMessage doer gitDiff (some cfg)
      = ((GetTypeResponseZero,
          some (.validation ("invalid style \"" ++ cfg.Style ++ "\""))), []) := by
  unfold GetCommitMessage
  rw [Option.getD_some]
  dsimp only
  unfold ValidateMessageStyle
  rw [if_neg (by simp [h1, h2, h3, h4])]

/-- C6 witness: the style "Whimsical" is rejected with no request issued. -/
theorem getCommitMessage_invalid_style_no_call_witness :
    GetCommitMessage (fun _ => Except.error "network down") "diff"
        (some { Style := "Whimsical", ConventionalCommitCompliant := false })
      = ((GetTypeResponseZero,
          some (.validation ("invalid style \"" ++ "Whimsical" ++ "\""))), []) :=
  getCommitMessage_invalid_style_no_call _ "diff" _ (by decide) (by decide) (by decide) (by decide)

/-- C7: for every git diff and every valid configuration, the conversation
`GetCommitMessage` constructs and sends has exactly four messages in the
fixed order system / exemplar user diff / exemplar assistant answer /
caller's diff; the exemplar user diff and the final message are independent
of the configuration, and the system and exemplar-assistant contents are
determined by the configuration alone. -/
theorem getCommitMessage_fixed_four_message_prompt
    (doer : Doer) (gitDiff : String) (cfg : MessageConfig)
    (hv : (ValidateMessageStyle cfg.Style).2 = none) :
    (GetCommitMessage doer gitDiff (some cfg)).2.map chatCompletionRequest.Messages
        = [buildMessages gitDiff cfg]
    ∧ (buildMessages gitDiff cfg).length = 4
    ∧ (buildMessages gitDiff cfg).map Message.Role
        = [SystemRole, UserRole, AssistantRole, UserRole]
    ∧ (buildMessages gitDiff cfg).get? 0 = some { Role := SystemRole, Content := systemContent cfg }
    ∧ (buildMessages gitDiff cfg).get? 1 = some { Role := UserRole, Content := exemplarDiff }
    ∧ (buildMessages gitDiff cfg).get? 2
        = some { Role := AssistantRole,
                 Content := getExpectedMessage cfg.Style cfg.ConventionalCommitCompliant }
    ∧ (buildMessages gitDiff cfg).get? 3 = some { Role := UserRole, Content := gitDiff } := by
  refine ⟨?_, rfl, rfl, rfl, rfl, rfl, rfl⟩
  rw [GetCommitMessage_valid _ _ _ hv, doChat_trace_eq,
    ChatCompletionRequest_trace _ _ _ _ temperature_point_two_valid]
  rfl

/-- C7 witness: the conversation sent for a concrete diff and the
casual/compliant configuration is the four-message list. -/
theorem getCommitMessage_fixed_four_message_prompt_witness :
    (GetCommitMessage (fun _ => Except.error "network down") "my diff"
        (some { Style := "ConversationalAndCasual", ConventionalCommitCompliant := true })).2.map
        chatCompletionRequest.Messages
        = [buildMessages "my diff"
            { Style := "ConversationalAndCasual", ConventionalCommitCompliant := true }]
    ∧ (buildMessages "my diff"
        { Style := "ConversationalAndCasual", ConventionalCommitCompliant := true }).length = 4 := by
  have h := getCommitMessage_fixed_four_message_prompt (fun _ => Except.error "network down")
    "my diff" { Style := "ConversationalAndCasual", ConventionalCommitCompliant := true } (by rfl)
  exact ⟨h.1, h.2.1⟩

/-- C8: the claim says the serialized body carries the validated temperature,
but the Go struct literal never assigns the `Temperature` field, so the body
sent for the (valid) temperature 0.2 carries temperature 0, not 0.2 — the
validated parameter is dropped after validation. -/
theorem chatCompletionRequest_serializes_zero_temperature :
    (ChatCompletionRequest (fun _ => Except.error "network down") [] GPT3_5Turbo 0.2).2
      = [{ Model := "gpt-3.5-turbo", Messages := [], Temperature := 0 }]
    ∧ (0 : ℚ) ≠ 0.2 := by
  refine ⟨?_, by norm_num⟩
  rw [ChatCompletionRequest_trace _ _ _ _ temperature_point_two_valid]
  rfl

/-- C9: the "unsure" marker match is case-sensitive — a single choice whose
content contains "Unsure" but not the lowercase "unsure" succeeds, and the
content is returned verbatim. -/
theorem getCommitMessage_unsure_match_case_sensitive
    (gitDiff : String) (cfg : MessageConfig) (status : String)
    (raw : rawChatCompletionResponse) (choice : rawChatCompletionChoiceResponse)
    (hv : (ValidateMessageStyle cfg.Style).2 = none)
    (hc : raw.Choices = [choice])
    (hcap : goStringsContains choice.Message.Content "Unsure" = true)
    (hu : goStringsContains choice.Message.Content "unsure" = false) :
    (GetCommitMessage (fun _ => Except.ok ⟨200, status, some raw⟩) gitDiff (some cfg)).1
      = ({ Message := choice.Message.Content,
           Cost := aiModel.Cost GPT3_5Turbo raw.Usage.TotalTokens * 100 }, none) := by
  rw [GetCommitMessage_single_choice gitDiff cfg status raw choice hv hc, hu]
  rfl

/-- C9 witness: the capitalized answer `Unsure wording: clarify docs` is
accepted verbatim. -/
theorem getCommitMessage_unsure_match_case_sensitive_witness :
    (GetCommitMessage
        (fun _ => Except.ok ⟨200, "200 OK",
          some { ID := "", Object := "", Created := 0, Model := "gpt-3.5-turbo",
                 Usage := { PromptTokens := 0, CompletionTokens := 0, TotalTokens := 4 },
                 Choices := [{ Message := { Role := "assistant", Content := "Unsure wording: clarify docs" },
                               FinishReason := "stop", Index := 0 }] }⟩)
        "diff" (some { Style := "DescriptiveAndNeutral", ConventionalCommitCompliant := false })).1
      = ({ Message := "Unsure wording: clarify docs",
           Cost := aiModel.Cost GPT3_5Turbo 4 * 100 }, none) :=
  getCommitMessage_unsure_match_case_sensitive
    "diff" _ "200 OK" _ _ (by rfl) (by rfl) (by decide) (by decide)

/-- C10: on every error outcome of `GetCommitMessage`, the returned
`GetTypeResponse` is the zero value: empty message and cost 0. -/
theorem getCommitMessage_error_zero_response
    (doer : Doer) (gitDiff : String) (cfgOpt : Option MessageConfig)
    (e : assistError)
    (h : ((GetCommitMessage doer gitDiff cfgOpt).1).2 = some e) :
    ((GetCommitMessage doer gitDiff cfgOpt).1).1 = { Message := "", Cost := 0 } := by
  unfold GetCommitMessage at h ⊢
  dsimp only at h ⊢
  rcases hvv : (ValidateMessageStyle ((cfgOpt.getD
      { Style := DescriptiveAndNeutral, ConventionalCommitCompliant := false }).Style)).2
    with _ | err
  · rw [hvv] at h
    dsimp only at h ⊢
    exact doChat_error_zero _ _ e h
  · rfl

/-- C10 witness: a transport failure yields the zero `GetTypeResponse`. -/
theorem getCommitMessage_error_zero_response_witness :
    ((GetCommitMessage (fun _ => Except.error "boom") "" none).1).1
      = { Message := "", Cost := 0 } :=
  getCommitMessage_error_zero_response (fun _ => Except.error "boom") "" none
    (.clientFailure (.transport "boom")) (by
      unfold GetCommitMessage doChatCompletionRequest ChatCompletionRequest
      dsimp only
      rw [if_neg temperature_point_two_valid]
      rfl)
